import Mathlib

/-!
Verification development for the drand beacon client (`src/lib.rs` and the
scheme/crypto modules it declares). The client layer — error enums,
`fetch_chain_info`, `new_client`, `DrandClient::randomness`,
`DrandClient::latest_randomness`, `DrandClient::fetch_beacon_tag` and the
`Scheme` trait — is embedded from `src/lib.rs`. The modules `bls.rs`,
`chain_info.rs`, `chained.rs` and `unchained.rs` are declared there but their
sources are not in the tree, so their data and verification rules are modelled
from the specification and marked as such. The only effect of the client is
calling the HTTP transport, which the embedding makes explicit: each
network-touching operation also returns the list of URLs it requested.
-/

namespace DrandClientRs

/-- Embedding of `DrandClientError` from src/lib.rs: the public error type of
the client layer. -/
inductive DrandClientError where
  | InvalidRound
  | InvalidBeacon
  | InvalidChainInfo
  | NotResponding
deriving DecidableEq, Repr

/-- Embedding of `SchemeError` from src/lib.rs: the finer-grained error type of
the scheme layer, never exposed past the client boundary. -/
inductive SchemeError where
  | InvalidBeacon
  | InvalidScheme
  | InvalidChainInfo
deriving DecidableEq, Repr

/-- Modelled from the spec: the `ChainInfo` record of the missing module
`chain_info.rs` (spec section 3) — public key bytes, round period, genesis
time, genesis hash and the scheme identifier string. Byte strings are lists of
naturals; no arithmetic is performed on them. -/
structure ChainInfo where
  public_key : List Nat
  period : Nat
  genesis_time : Nat
  hash : List Nat
  scheme_id : String
deriving DecidableEq, Repr

/-- Modelled from the spec: the beacon record of the missing modules
`chained.rs` and `unchained.rs` (spec section 3) — round number (a u64 on the
wire; only compared with 0 and rendered in decimal, so no overflow arises),
signature bytes, and an optional previous-signature field that only the
Chained variant requires. -/
structure BeaconRecord where
  round_number : Nat
  signature : List Nat
  previous_signature : Option (List Nat)
deriving DecidableEq, Repr

/-- Modelled from the spec: the cryptographic primitives of the missing module
`bls.rs` (spec section 4.2) — a cryptographic hash over byte strings and the
BLS pairing check `blsVerify publicKey message signature`. Both are abstract
function parameters: the claims under study concern message construction and
control flow, not the pairing equation itself. -/
structure Crypto where
  hash : List Nat → List Nat
  blsVerify : List Nat → List Nat → List Nat → Bool

/-- Big-endian byte rendering of a round number as an unsigned 64-bit integer
(`u64::to_be_bytes` on the Rust side), each byte reduced mod 256. -/
def roundToBeBytes (round : Nat) : List Nat :=
  [round / 2 ^ 56 % 256, round / 2 ^ 48 % 256, round / 2 ^ 40 % 256,
   round / 2 ^ 32 % 256, round / 2 ^ 24 % 256, round / 2 ^ 16 % 256,
   round / 2 ^ 8 % 256, round % 256]

/-- Modelled from the spec: the signed message of the Chained variant (spec
section 4.3, missing module `chained.rs`) — the hash of the previous round's
signature bytes followed by the big-endian round number. -/
def chainedMessage (crypto : Crypto) (previous : List Nat) (round : Nat) : List Nat :=
  crypto.hash (previous ++ roundToBeBytes round)

/-- Modelled from the spec: the signed message of the Unchained variant (spec
section 4.4, missing module `unchained.rs`) — the hash of the big-endian round
number alone, with no previous-signature input. -/
def unchainedMessage (crypto : Crypto) (round : Nat) : List Nat :=
  crypto.hash (roundToBeBytes round)

/-- Modelled from the spec: the scheme identifiers the Chained variant accepts
(spec section 4.3: the "chained" tag or the pre-designated legacy
identifier). -/
def chainedSupports (scheme_id : String) : Bool :=
  scheme_id == "chained" || scheme_id == "pedersen-bls-chained"

/-- Modelled from the spec: the scheme identifiers the Unchained variant
accepts (spec section 4.4). -/
def unchainedSupports (scheme_id : String) : Bool :=
  scheme_id == "unchained" || scheme_id == "pedersen-bls-unchained"

/-- Modelled from the spec: `verify` of the Chained variant (spec sections 4.3
and 4.4, steps 1-4; missing module `chained.rs`). Reject an unsupported scheme
id with InvalidScheme; reject a record with no previous-signature field with
InvalidBeacon; otherwise check the BLS signature over the chained message and
return the beacon unchanged on success. -/
def chainedVerify (crypto : Crypto) (info : ChainInfo) (beacon : BeaconRecord) :
    Except SchemeError BeaconRecord :=
  if !chainedSupports info.scheme_id then .error .InvalidScheme
  else
    match beacon.previous_signature with
    | none => .error .InvalidBeacon
    | some previous =>
        if crypto.blsVerify info.public_key
            (chainedMessage crypto previous beacon.round_number) beacon.signature
        then .ok beacon
        else .error .InvalidBeacon

/-- Modelled from the spec: `verify` of the Unchained variant (spec sections
4.4 and 4.4 steps 1-4; missing module `unchained.rs`). Reject an unsupported
scheme id with InvalidScheme; the previous-signature field, present or not, is
ignored; check the BLS signature over the round-only message and return the
beacon unchanged on success. -/
def unchainedVerify (crypto : Crypto) (info : ChainInfo) (beacon : BeaconRecord) :
    Except SchemeError BeaconRecord :=
  if !unchainedSupports info.scheme_id then .error .InvalidScheme
  else if crypto.blsVerify info.public_key
      (unchainedMessage crypto beacon.round_number) beacon.signature
  then .ok beacon
  else .error .InvalidBeacon

/-- Embedding of the trait `Scheme<B>` from src/lib.rs: the scheme ids a
variant supports and its verification gate. -/
structure Scheme (B : Type) where
  supports : String → Bool
  verify : ChainInfo → B → Except SchemeError B

/-- The Chained variant packaged as a `Scheme`, as `ChainedScheme` is used in
src/lib.rs. -/
def chainedScheme (crypto : Crypto) : Scheme BeaconRecord :=
  ⟨chainedSupports, chainedVerify crypto⟩

/-- The Unchained variant packaged as a `Scheme`, as `UnchainedScheme` is used
in src/lib.rs. -/
def unchainedScheme (crypto : Crypto) : Scheme BeaconRecord :=
  ⟨unchainedSupports, unchainedVerify crypto⟩

/-- The HTTP transport collaborator (`HttpTransport::fetch`): a URL is mapped
to either the raw response body or a transport failure whose detail the client
discards. -/
abbrev Transport := String → Except Unit String

/-- Embedding of `DrandClient` from src/lib.rs: the Ready client holds its
scheme, base URL and the chain info fetched at construction. The transport is
passed to each operation as the function standing for its only effect. -/
structure DrandClient (B : Type) where
  scheme : Scheme B
  base_url : String
  chain_info : ChainInfo

/-- Embedding of `fetch_chain_info` from src/lib.rs: one GET to
`{base_url}/info`; a transport failure maps to NotResponding and a body the
decoder rejects to InvalidChainInfo. JSON decoding is the external collaborator
`decodeInfo`. The second component lists the URLs requested through the
transport, making the network effect explicit. -/
def fetch_chain_info (transport : Transport) (decodeInfo : String → Option ChainInfo)
    (base_url : String) : Except DrandClientError ChainInfo × List String :=
  match transport (base_url ++ "/info") with
  | .error _ => (.error .NotResponding, [base_url ++ "/info"])
  | .ok body =>
      match decodeInfo body with
      | some info => (.ok info, [base_url ++ "/info"])
      | none => (.error .InvalidChainInfo, [base_url ++ "/info"])

/-- Embedding of `new_client` from src/lib.rs: fetch the chain info once; on
failure propagate that same error and produce no client, on success produce
the Ready client. -/
def new_client {B : Type} (scheme : Scheme B) (transport : Transport)
    (decodeInfo : String → Option ChainInfo) (base_url : String) :
    Except DrandClientError (DrandClient B) × List String :=
  match fetch_chain_info transport decodeInfo base_url with
  | (.error e, urls) => (.error e, urls)
  | (.ok info, urls) => (.ok ⟨scheme, base_url, info⟩, urls)

/-- Embedding of `DrandClient::fetch_beacon_tag` from src/lib.rs: GET
`{base_url}/public/{tag}`; a transport failure maps to NotResponding, a decode
failure to InvalidBeacon, and a decoded record is handed to the active
scheme's verify, every error of which is collapsed to InvalidBeacon. The
second component lists the URLs requested. -/
def fetch_beacon_tag {B : Type} (client : DrandClient B) (transport : Transport)
    (decode : String → Option B) (tag : String) :
    Except DrandClientError B × List String :=
  match transport (client.base_url ++ "/public/" ++ tag) with
  | .error _ => (.error .NotResponding, [client.base_url ++ "/public/" ++ tag])
  | .ok body =>
      match decode body with
      | some beacon =>
          (match client.scheme.verify client.chain_info beacon with
           | .ok verified => .ok verified
           | .error _ => .error .InvalidBeacon, [client.base_url ++ "/public/" ++ tag])
      | none => (.error .InvalidBeacon, [client.base_url ++ "/public/" ++ tag])

/-- Embedding of `DrandClient::randomness` from src/lib.rs: round 0 fails with
InvalidRound before touching the transport; any other round fetches the tag
rendered in decimal (`format!` of a u64). -/
def randomness {B : Type} (client : DrandClient B) (transport : Transport)
    (decode : String → Option B) (round_number : Nat) :
    Except DrandClientError B × List String :=
  if round_number == 0 then (.error .InvalidRound, [])
  else fetch_beacon_tag client transport decode (toString round_number)

/-- Embedding of `DrandClient::latest_randomness` from src/lib.rs: fetch the
fixed tag "latest". -/
def latest_randomness {B : Type} (client : DrandClient B) (transport : Transport)
    (decode : String → Option B) : Except DrandClientError B × List String :=
  fetch_beacon_tag client transport decode "latest"

/-! Concrete fixtures used by the witness theorems. -/

/-- Crypto fixture: identity hash and a pairing check that accepts exactly the
signature equal to the message — an idealized signature scheme whose signing
function is the identity. -/
def cryptoId : Crypto := ⟨id, fun _ msg sg => sg == msg⟩

/-- Crypto fixture: a pairing check that accepts everything, used to show
structural rejections are independent of the signature check. -/
def cryptoTrue : Crypto := ⟨id, fun _ _ _ => true⟩

/-- Chain info fixture carrying the "chained" scheme identifier. -/
def infoChained : ChainInfo := ⟨[1], 30, 0, [2], "chained"⟩

/-- Chain info fixture carrying the "unchained" scheme identifier. -/
def infoUnchained : ChainInfo := ⟨[1], 30, 0, [2], "unchained"⟩

/-- Beacon fixture for the chained-style-signature scenario: round 5 and a
signature that is the idealized signature of the chained message built from
previous signature bytes `[7]`. -/
def beaconChainStyle : BeaconRecord := ⟨5, [7] ++ roundToBeBytes 5, none⟩

/-- Transport fixture that answers every URL with the same body. -/
def transportOk : Transport := fun _ => .ok "body"

/-- Decoder fixture returning a fixed valid chained beacon. -/
def decodeChained : String → Option BeaconRecord := fun _ => some ⟨1, [2], some [3]⟩

/-- Decoder fixture returning the chained-style-signature beacon. -/
def decodeChainStyle : String → Option BeaconRecord := fun _ => some beaconChainStyle

/-- Decoder fixture returning a bare record with no previous signature. -/
def decodeBare : String → Option BeaconRecord := fun _ => some ⟨1, [], none⟩

/-- Ready-client fixture for the Chained variant with the always-accepting
pairing check. -/
def clientChained : DrandClient BeaconRecord :=
  ⟨chainedScheme cryptoTrue, "http://x", infoChained⟩

/-- Verdict of a scheme-layer result: the error it carries, or `none` on
success. Comparing verdicts ignores which record a success returns. -/
def verdict {α : Type} : Except SchemeError α → Option SchemeError
  | .ok _ => none
  | .error e => some e

/-! Helper lemmas shared between claims. -/

/-- The fetch-and-verify path requests exactly one URL, `{base_url}/public/{tag}`,
whatever the transport and decoder answer. -/
theorem fetch_beacon_tag_urls {B : Type} (client : DrandClient B) (transport : Transport)
    (decode : String → Option B) (tag : String) :
    (fetch_beacon_tag client transport decode tag).2 =
      [client.base_url ++ "/public/" ++ tag] := by
  cases htr : transport (client.base_url ++ "/public/" ++ tag) with
  | error e => simp [fetch_beacon_tag, htr]
  | ok body =>
      cases hd : decode body with
      | none => simp [fetch_beacon_tag, htr, hd]
      | some beacon =>
          cases hv : client.scheme.verify client.chain_info beacon with
          | error e => simp [fetch_beacon_tag, htr, hd, hv]
          | ok verified => simp [fetch_beacon_tag, htr, hd, hv]

/-! Claim theorems. -/

/-- C1: under the Chained variant, once the scheme identifier is supported and
the record carries a previous-signature field, the one signature check is
against exactly the hash of the previous round's signature bytes followed by
the current round number in fixed-width big-endian encoding; its outcome alone
decides between success and InvalidBeacon. -/
theorem C1_chained_message_is_hash_of_prev_and_round
    (crypto : Crypto) (info : ChainInfo) (beacon : BeaconRecord) (previous : List Nat)
    (hsup : chainedSupports info.scheme_id = true)
    (hprev : beacon.previous_signature = some previous) :
    chainedVerify crypto info beacon =
      if crypto.blsVerify info.public_key
          (crypto.hash (previous ++ roundToBeBytes beacon.round_number)) beacon.signature
      then .ok beacon else .error .InvalidBeacon := by
  simp [chainedVerify, hsup, hprev, chainedMessage]

/-- Witness for C1 at a concrete chained beacon. -/
theorem C1_witness :
    chainedVerify cryptoId infoChained ⟨5, [7] ++ roundToBeBytes 5, some [7]⟩ =
      if cryptoId.blsVerify infoChained.public_key
          (cryptoId.hash ([7] ++ roundToBeBytes 5))
          (BeaconRecord.mk 5 ([7] ++ roundToBeBytes 5) (some [7])).signature
      then .ok ⟨5, [7] ++ roundToBeBytes 5, some [7]⟩ else .error .InvalidBeacon :=
  C1_chained_message_is_hash_of_prev_and_round cryptoId infoChained
    ⟨5, [7] ++ roundToBeBytes 5, some [7]⟩ [7] (by decide) rfl

/-- C2: under the Unchained variant the signed message is the hash of the
big-endian round number alone — for a supported scheme identifier the single
pairing check over that message decides the outcome — and a signature produced
with the correct keypair but over the chained-style message (previous
signature concatenated with the round) is rejected with InvalidBeacon at the
scheme layer and surfaces as InvalidBeacon from `randomness`. The
idealized-keypair hypothesis `hideal` says the pairing check under this
public key accepts exactly the keypair's signature of the checked message,
and `hne` that the signatures of the two distinct messages differ. -/
theorem C2_unchained_message_is_round_only
    (crypto : Crypto) (info : ChainInfo) (beacon beacon0 : BeaconRecord)
    (sign : List Nat → List Nat) (previous : List Nat)
    (base_url body : String) (transport : Transport)
    (decode : String → Option BeaconRecord)
    (hsup : unchainedSupports info.scheme_id = true)
    (hideal : ∀ msg sg, crypto.blsVerify info.public_key msg sg = true ↔ sg = sign msg)
    (hsig : beacon.signature =
      sign (crypto.hash (previous ++ roundToBeBytes beacon.round_number)))
    (hne : sign (crypto.hash (previous ++ roundToBeBytes beacon.round_number)) ≠
      sign (crypto.hash (roundToBeBytes beacon.round_number)))
    (hr : beacon.round_number ≠ 0)
    (ht : transport (base_url ++ "/public/" ++ toString beacon.round_number) = .ok body)
    (hd : decode body = some beacon) :
    unchainedVerify crypto info beacon0 =
      (if crypto.blsVerify info.public_key
          (crypto.hash (roundToBeBytes beacon0.round_number)) beacon0.signature
       then .ok beacon0 else .error .InvalidBeacon) ∧
    unchainedVerify crypto info beacon = .error .InvalidBeacon ∧
    (randomness ⟨unchainedScheme crypto, base_url, info⟩ transport decode
        beacon.round_number).1 = .error .InvalidBeacon := by
  have hchar : ∀ b : BeaconRecord, unchainedVerify crypto info b =
      if crypto.blsVerify info.public_key
          (crypto.hash (roundToBeBytes b.round_number)) b.signature
      then .ok b else .error .InvalidBeacon := by
    intro b
    simp [unchainedVerify, hsup, unchainedMessage]
  have hfalse : crypto.blsVerify info.public_key
      (crypto.hash (roundToBeBytes beacon.round_number)) beacon.signature = false := by
    rw [← Bool.not_eq_true, hideal, hsig]
    exact hne
  have herr : unchainedVerify crypto info beacon = .error .InvalidBeacon := by
    rw [hchar beacon, hfalse]
    simp
  refine ⟨hchar beacon0, herr, ?_⟩
  simp [randomness, hr, fetch_beacon_tag, ht, hd, unchainedScheme, herr]

/-- Witness for C2: the chained-style-signature scenario at round 5 with the
identity-signing idealized crypto. -/
theorem C2_witness :
    unchainedVerify cryptoId infoUnchained beaconChainStyle =
      (if cryptoId.blsVerify infoUnchained.public_key
          (cryptoId.hash (roundToBeBytes beaconChainStyle.round_number))
          beaconChainStyle.signature
       then .ok beaconChainStyle else .error .InvalidBeacon) ∧
    unchainedVerify cryptoId infoUnchained beaconChainStyle = .error .InvalidBeacon ∧
    (randomness ⟨unchainedScheme cryptoId, "http://x", infoUnchained⟩ transportOk
        decodeChainStyle beaconChainStyle.round_number).1 = .error .InvalidBeacon :=
  C2_unchained_message_is_round_only cryptoId infoUnchained beaconChainStyle
    beaconChainStyle id [7] "http://x" "body" transportOk decodeChainStyle
    (by decide) (by simp [cryptoId]) rfl (by decide) (by decide) rfl rfl

/-- C4: a scheme identifier the active variant does not support is rejected
with InvalidScheme for every crypto instance and every record — the record may
even lack its previous signature and the pairing check may accept everything,
so the identifier check precedes the structural and signature checks — and at
the client boundary the rejection surfaces as InvalidBeacon. Each variant's
chain info is constrained only by its own hypothesis, so the cross-scheme
mismatch (a Chained client against a chain declaring an Unchained identifier,
and vice versa) is an instance. -/
theorem C4_unsupported_scheme_rejected
    (crypto : Crypto) (info1 info2 : ChainInfo) (beacon : BeaconRecord)
    (base_url body : String) (transport : Transport)
    (decode : String → Option BeaconRecord) (r : Nat)
    (hch : chainedSupports info1.scheme_id = false)
    (hun : unchainedSupports info2.scheme_id = false)
    (hr : r ≠ 0)
    (ht : transport (base_url ++ "/public/" ++ toString r) = .ok body)
    (hd : decode body = some beacon) :
    chainedVerify crypto info1 beacon = .error .InvalidScheme ∧
    unchainedVerify crypto info2 beacon = .error .InvalidScheme ∧
    (randomness ⟨chainedScheme crypto, base_url, info1⟩ transport decode r).1 =
      .error .InvalidBeacon ∧
    (randomness ⟨unchainedScheme crypto, base_url, info2⟩ transport decode r).1 =
      .error .InvalidBeacon := by
  have h1 : chainedVerify crypto info1 beacon = .error .InvalidScheme := by
    simp [chainedVerify, hch]
  have h2 : unchainedVerify crypto info2 beacon = .error .InvalidScheme := by
    simp [unchainedVerify, hun]
  refine ⟨h1, h2, ?_, ?_⟩
  · simp [randomness, hr, fetch_beacon_tag, ht, hd, chainedScheme, h1]
  · simp [randomness, hr, fetch_beacon_tag, ht, hd, unchainedScheme, h2]

/-- Witness for C4 at the spec's cross-scheme mismatch: a Chained client
against a chain declaring the "unchained" identifier and an Unchained client
against a chain declaring the "chained" identifier, with a structurally
invalid record and an always-accepting pairing check. -/
theorem C4_witness :
    chainedVerify cryptoTrue infoUnchained ⟨1, [], none⟩ = .error .InvalidScheme ∧
    unchainedVerify cryptoTrue infoChained ⟨1, [], none⟩ = .error .InvalidScheme ∧
    (randomness ⟨chainedScheme cryptoTrue, "http://x", infoUnchained⟩ transportOk
        decodeBare 2).1 = .error .InvalidBeacon ∧
    (randomness ⟨unchainedScheme cryptoTrue, "http://x", infoChained⟩ transportOk
        decodeBare 2).1 = .error .InvalidBeacon :=
  C4_unsupported_scheme_rejected cryptoTrue infoUnchained infoChained ⟨1, [], none⟩
    "http://x" "body" transportOk decodeBare 2 (by decide) (by decide) (by decide)
    rfl rfl

/-- C3: a Chained-variant record with no previous-signature field is rejected
with InvalidBeacon for every crypto instance — in particular for a pairing
check that accepts everything, so the rejection is independent of the
signature check — while the Unchained variant gives the same verdict whether
the field is populated or not. -/
theorem C3_prev_sig_required_by_chained_ignored_by_unchained
    (crypto : Crypto) (info info' : ChainInfo) (beacon : BeaconRecord) (p : List Nat)
    (hsup : chainedSupports info.scheme_id = true) :
    chainedVerify crypto info { beacon with previous_signature := none } =
      .error .InvalidBeacon ∧
    verdict (unchainedVerify crypto info' { beacon with previous_signature := some p }) =
      verdict (unchainedVerify crypto info' beacon) := by
  constructor
  · simp [chainedVerify, hsup]
  · simp only [unchainedVerify, unchainedMessage]
    split
    · rfl
    · split <;> rfl

/-- Witness for C3 at a concrete record, with the always-accepting pairing
check standing for an otherwise-valid signature. -/
theorem C3_witness :
    chainedVerify cryptoTrue infoChained
        { BeaconRecord.mk 1 [3] (some [4]) with previous_signature := none } =
      .error .InvalidBeacon ∧
    verdict (unchainedVerify cryptoTrue infoUnchained
        { BeaconRecord.mk 1 [3] (some [4]) with previous_signature := some [9] }) =
      verdict (unchainedVerify cryptoTrue infoUnchained ⟨1, [3], some [4]⟩) :=
  C3_prev_sig_required_by_chained_ignored_by_unchained cryptoTrue infoChained
    infoUnchained ⟨1, [3], some [4]⟩ [9] (by decide)

/-- C8: whenever either variant's verify succeeds, the beacon it returns is
the very record it was given — verification gates, it does not transform. -/
theorem C8_verify_is_gate_not_transform
    (crypto : Crypto) (info1 info2 : ChainInfo) (b1 b2 r1 r2 : BeaconRecord)
    (hc : chainedVerify crypto info1 b1 = .ok r1)
    (hu : unchainedVerify crypto info2 b2 = .ok r2) :
    r1 = b1 ∧ r2 = b2 := by
  constructor
  · unfold chainedVerify at hc
    split at hc
    · exact absurd hc (by simp)
    · split at hc
      · exact absurd hc (by simp)
      · split at hc
        · simp at hc
          exact hc.symm
        · exact absurd hc (by simp)
  · unfold unchainedVerify at hu
    split at hu
    · exact absurd hu (by simp)
    · split at hu
      · simp at hu
        exact hu.symm
      · exact absurd hu (by simp)

/-- Witness for C8 at concrete records accepted by both variants. -/
theorem C8_witness :
    (⟨2, [5], some [6]⟩ : BeaconRecord) = ⟨2, [5], some [6]⟩ ∧
    (⟨3, [8], none⟩ : BeaconRecord) = ⟨3, [8], none⟩ :=
  C8_verify_is_gate_not_transform cryptoTrue infoChained infoUnchained
    ⟨2, [5], some [6]⟩ ⟨3, [8], none⟩ ⟨2, [5], some [6]⟩ ⟨3, [8], none⟩
    rfl rfl

/-- Every outcome of the fetch-and-verify path is NotResponding, InvalidBeacon,
or a record the active scheme's verify accepted. -/
theorem fetch_beacon_tag_outcomes {B : Type} (client : DrandClient B)
    (transport : Transport) (decode : String → Option B) (tag : String) :
    (fetch_beacon_tag client transport decode tag).1 =
        .error DrandClientError.NotResponding ∨
    (fetch_beacon_tag client transport decode tag).1 =
        .error DrandClientError.InvalidBeacon ∨
    ∃ beacon body decoded,
      (fetch_beacon_tag client transport decode tag).1 = .ok beacon ∧
      transport (client.base_url ++ "/public/" ++ tag) = .ok body ∧
      decode body = some decoded ∧
      client.scheme.verify client.chain_info decoded = .ok beacon := by
  cases htr : transport (client.base_url ++ "/public/" ++ tag) with
  | error e => left; simp [fetch_beacon_tag, htr]
  | ok body =>
      cases hd : decode body with
      | none => right; left; simp [fetch_beacon_tag, htr, hd]
      | some decoded =>
          cases hv : client.scheme.verify client.chain_info decoded with
          | error e => right; left; simp [fetch_beacon_tag, htr, hd, hv]
          | ok beacon =>
              right; right
              exact ⟨beacon, body, decoded,
                by simp [fetch_beacon_tag, htr, hd, hv], rfl, hd, hv⟩

/-- C5: `randomness(0)` fails with InvalidRound and its request log is empty —
the transport is never invoked — while for every round at least 1 the call is
exactly the shared fetch of the tag rendered in decimal, requesting the single
URL `{base_url}/public/{round}`. -/
theorem C5_round_zero_rejected_before_network
    {B : Type} (client : DrandClient B) (transport : Transport)
    (decode : String → Option B) (r : Nat) (hr : 1 ≤ r) :
    randomness client transport decode 0 = (.error .InvalidRound, []) ∧
    randomness client transport decode r =
      fetch_beacon_tag client transport decode (toString r) ∧
    (randomness client transport decode r).2 =
      [client.base_url ++ "/public/" ++ toString r] := by
  have hr0 : r ≠ 0 := Nat.one_le_iff_ne_zero.mp hr
  have heq : randomness client transport decode r =
      fetch_beacon_tag client transport decode (toString r) := by
    simp [randomness, hr0]
  refine ⟨rfl, heq, ?_⟩
  rw [heq]
  exact fetch_beacon_tag_urls client transport decode (toString r)

/-- Witness for C5 at round 1 on a concrete chained client. -/
theorem C5_witness :
    randomness clientChained transportOk decodeChained 0 =
      (.error .InvalidRound, []) ∧
    randomness clientChained transportOk decodeChained 1 =
      fetch_beacon_tag clientChained transportOk decodeChained (toString 1) ∧
    (randomness clientChained transportOk decodeChained 1).2 =
      [clientChained.base_url ++ "/public/" ++ toString 1] :=
  C5_round_zero_rejected_before_network clientChained transportOk decodeChained 1
    (by decide)

/-- C6: the shared fetch-and-verify path requests exactly
`{base_url}/public/{tag}` and maps outcomes as: transport failure to
NotResponding, decode failure to InvalidBeacon, every error of the active
scheme's verify to the one public InvalidBeacon, while a decoded record is
always handed to the scheme's verify and an accepted record is returned. -/
theorem C6_fetch_and_verify_error_mapping
    {B : Type} (client : DrandClient B) (transport : Transport)
    (decode : String → Option B) (tag : String) :
    fetch_beacon_tag client transport decode tag =
      (match transport (client.base_url ++ "/public/" ++ tag) with
       | .error _ => Except.error DrandClientError.NotResponding
       | .ok body =>
           match decode body with
           | none => Except.error DrandClientError.InvalidBeacon
           | some beacon =>
               match client.scheme.verify client.chain_info beacon with
               | .error _ => Except.error DrandClientError.InvalidBeacon
               | .ok verified => Except.ok verified,
       [client.base_url ++ "/public/" ++ tag]) := by
  cases htr : transport (client.base_url ++ "/public/" ++ tag) with
  | error e => simp [fetch_beacon_tag, htr]
  | ok body =>
      cases hd : decode body with
      | none => simp [fetch_beacon_tag, htr, hd]
      | some beacon =>
          cases hv : client.scheme.verify client.chain_info beacon with
          | error e => simp [fetch_beacon_tag, htr, hd, hv]
          | ok verified => simp [fetch_beacon_tag, htr, hd, hv]

/-- C7: fetching chain info issues exactly one GET to `{base_url}/info`,
mapping a transport failure to NotResponding and an undecodable body to
InvalidChainInfo with no retry; construction propagates that same error and
produces no client, and produces the Ready client exactly on success. -/
theorem C7_chain_info_fetch_and_construction
    {B : Type} (scheme : Scheme B) (transport : Transport)
    (decodeInfo : String → Option ChainInfo) (base_url : String) :
    fetch_chain_info transport decodeInfo base_url =
      (match transport (base_url ++ "/info") with
       | .error _ => Except.error DrandClientError.NotResponding
       | .ok body =>
           match decodeInfo body with
           | some info => Except.ok info
           | none => Except.error DrandClientError.InvalidChainInfo,
       [base_url ++ "/info"]) ∧
    new_client scheme transport decodeInfo base_url =
      (match (fetch_chain_info transport decodeInfo base_url).1 with
       | .error e => Except.error e
       | .ok info => Except.ok (DrandClient.mk scheme base_url info),
       (fetch_chain_info transport decodeInfo base_url).2) := by
  constructor
  · cases htr : transport (base_url ++ "/info") with
    | error e => simp [fetch_chain_info, htr]
    | ok body =>
        cases hd : decodeInfo body with
        | none => simp [fetch_chain_info, htr, hd]
        | some info => simp [fetch_chain_info, htr, hd]
  · cases hfc : fetch_chain_info transport decodeInfo base_url with
    | mk res urls =>
        cases res with
        | error e => simp [new_client, hfc]
        | ok info => simp [new_client, hfc]

/-- C9: verification is deterministic and stateless. The embedding mirrors the
source, where `verify` borrows the chain info immutably and the client holds
no mutable verifier state, so verification is a pure function of its
arguments: repeated invocations on the same chain info and record — and
repeated `randomness` calls on one client — denote the very same value, and no
prior call can influence a later one. -/
theorem C9_verify_deterministic_and_stateless
    {B : Type} (crypto : Crypto) (info : ChainInfo) (beacon : BeaconRecord)
    (client : DrandClient B) (transport : Transport)
    (decode : String → Option B) (r : Nat) :
    (chainedVerify crypto info beacon, unchainedVerify crypto info beacon) =
      (chainedVerify crypto info beacon, unchainedVerify crypto info beacon) ∧
    randomness client transport decode r = randomness client transport decode r :=
  ⟨rfl, rfl⟩

/-- C10: for every round at least 1, the public result of `randomness` is a
record the active scheme's verify accepted, NotResponding, or InvalidBeacon —
never InvalidRound and never InvalidChainInfo, although `SchemeError` carries
an InvalidChainInfo constructor — and the same error set holds for
`latest_randomness`. -/
theorem C10_public_error_set
    {B : Type} (client : DrandClient B) (transport : Transport)
    (decode : String → Option B) (r : Nat) (hr : 1 ≤ r) :
    ((randomness client transport decode r).1 =
        .error DrandClientError.NotResponding ∨
     (randomness client transport decode r).1 =
        .error DrandClientError.InvalidBeacon ∨
     ∃ beacon body decoded,
       (randomness client transport decode r).1 = .ok beacon ∧
       transport (client.base_url ++ "/public/" ++ toString r) = .ok body ∧
       decode body = some decoded ∧
       client.scheme.verify client.chain_info decoded = .ok beacon) ∧
    ((latest_randomness client transport decode).1 =
        .error DrandClientError.NotResponding ∨
     (latest_randomness client transport decode).1 =
        .error DrandClientError.InvalidBeacon ∨
     ∃ beacon body decoded,
       (latest_randomness client transport decode).1 = .ok beacon ∧
       transport (client.base_url ++ "/public/" ++ "latest") = .ok body ∧
       decode body = some decoded ∧
       client.scheme.verify client.chain_info decoded = .ok beacon) := by
  constructor
  · have hr0 : r ≠ 0 := Nat.one_le_iff_ne_zero.mp hr
    have heq : randomness client transport decode r =
        fetch_beacon_tag client transport decode (toString r) := by
      simp [randomness, hr0]
    rw [heq]
    exact fetch_beacon_tag_outcomes client transport decode (toString r)
  · exact fetch_beacon_tag_outcomes client transport decode "latest"

/-- Witness for C10 at round 1 on a concrete chained client. -/
theorem C10_witness :
    ((randomness clientChained transportOk decodeChained 1).1 =
        .error DrandClientError.NotResponding ∨
     (randomness clientChained transportOk decodeChained 1).1 =
        .error DrandClientError.InvalidBeacon ∨
     ∃ beacon body decoded,
       (randomness clientChained transportOk decodeChained 1).1 = .ok beacon ∧
       transportOk (clientChained.base_url ++ "/public/" ++ toString 1) = .ok body ∧
       decodeChained body = some decoded ∧
       clientChained.scheme.verify clientChained.chain_info decoded = .ok beacon) ∧
    ((latest_randomness clientChained transportOk decodeChained).1 =
        .error DrandClientError.NotResponding ∨
     (latest_randomness clientChained transportOk decodeChained).1 =
        .error DrandClientError.InvalidBeacon ∨
     ∃ beacon body decoded,
       (latest_randomness clientChained transportOk decodeChained).1 = .ok beacon ∧
       transportOk (clientChained.base_url ++ "/public/" ++ "latest") = .ok body ∧
       decodeChained body = some decoded ∧
       clientChained.scheme.verify clientChained.chain_info decoded = .ok beacon) :=
  C10_public_error_set clientChained transportOk decodeChained 1 (by decide)

end DrandClientRs
